import Mathlib

/- Verification development for the Area Occupancy Detection probability engine
   (`custom_components/area_occupancy`).

   Modelling conventions (shallow embedding):
   * Python floats are modelled as exact rationals (ℚ); timestamps are rational
     seconds since an arbitrary epoch, so `datetime` subtraction and comparison
     become ℚ subtraction and comparison.
   * Python dicts are modelled as association lists (`List (String × _)`,
     preserving insertion/iteration order) or as lookup functions
     (`String → Option _`) when only `get` is used.
   * `math.exp` is a host float transcendental; the live calculator is therefore
     parametrised over a function `explike : ℚ → ℚ` standing for it, and the
     claims about the decay factor's real value are stated against `Real.exp`.
   * Python's stable `sorted(…, key=…)` is modelled by `List.insertionSort` over
     the key order, which is also a stable sort, hence extensionally identical.
-/

namespace AreaOccupancy

/- ---------------------------------------------------------------------------
   Constants from `probabilities.py`.
--------------------------------------------------------------------------- -/

def DEFAULT_PROB_GIVEN_TRUE : ℚ := 3/10

def DEFAULT_PROB_GIVEN_FALSE : ℚ := 2/100

def MOTION_PROB_GIVEN_TRUE : ℚ := 25/100

def MOTION_PROB_GIVEN_FALSE : ℚ := 5/100

def DOOR_PROB_GIVEN_TRUE : ℚ := 2/10

def DOOR_PROB_GIVEN_FALSE : ℚ := 2/100

def WINDOW_PROB_GIVEN_TRUE : ℚ := 2/10

def WINDOW_PROB_GIVEN_FALSE : ℚ := 2/100

def LIGHT_PROB_GIVEN_TRUE : ℚ := 2/10

def LIGHT_PROB_GIVEN_FALSE : ℚ := 2/100

def MEDIA_PROB_GIVEN_TRUE : ℚ := 25/100

def MEDIA_PROB_GIVEN_FALSE : ℚ := 2/100

def APPLIANCE_PROB_GIVEN_TRUE : ℚ := 2/10

def APPLIANCE_PROB_GIVEN_FALSE : ℚ := 2/100

def ENVIRONMENTAL_PROB_GIVEN_TRUE : ℚ := 9/100

def ENVIRONMENTAL_PROB_GIVEN_FALSE : ℚ := 1/100

def MOTION_DEFAULT_PRIOR : ℚ := 35/100

def MEDIA_DEFAULT_PRIOR : ℚ := 30/100

def APPLIANCE_DEFAULT_PRIOR : ℚ := 2356/10000

def DOOR_DEFAULT_PRIOR : ℚ := 1356/10000

def WINDOW_DEFAULT_PRIOR : ℚ := 1569/10000

def LIGHT_DEFAULT_PRIOR : ℚ := 3846/10000

def ENVIRONMENTAL_DEFAULT_PRIOR : ℚ := 769/10000

/-- Modelled from the spec: `calculations.py` imports `MIN_PROBABILITY` from
`.probabilities`, but the `probabilities.py` in this snapshot does not define
it.  The spec fixes the clamping interval to [0.01, 0.99] throughout. -/
def MIN_PROBABILITY : ℚ := 1/100

/-- Modelled from the spec: counterpart of `MIN_PROBABILITY`; the spec fixes
the upper clamping bound to 0.99. -/
def MAX_PROBABILITY : ℚ := 99/100

/-- Modelled from the spec: `calculations.py` imports `DECAY_LAMBDA` from
`.probabilities`, which does not define it in this snapshot.  The spec gives
λ ≈ 0.8664 (so that the value decays to 25% of the original at
elapsed = decay_window / 2), and its worked scenario uses exactly 0.8664. -/
def DECAY_LAMBDA : ℚ := 8664/10000

/-- Modelled from the spec: `calculations.py` imports `DEFAULT_PRIOR` from
`.probabilities`, which does not define it in this snapshot.  The spec calls it
"a global default prior" without fixing a value; no claim below depends on the
value, so the midpoint of the clamping interval is used. -/
def DEFAULT_PRIOR : ℚ := 1/2

/-- Clamp a probability to `[MIN_PROBABILITY, MAX_PROBABILITY]`; the source
writes `max(MIN_PROBABILITY, min(x, MAX_PROBABILITY))` inline at each use. -/
def clampProb (x : ℚ) : ℚ := max MIN_PROBABILITY (min x MAX_PROBABILITY)

/-- `update_probability` (calculations.py lines 70-88): Bayesian update with
input and output clamping, returning the prior unchanged on a zero
denominator. -/
def update_probability (prior prob_given_true prob_given_false : ℚ) : ℚ :=
  let prior' := clampProb prior
  let pt := clampProb prob_given_true
  let pf := clampProb prob_given_false
  let numerator := pt * prior'
  let denominator := numerator + pf * (1 - prior')
  if denominator = 0 then prior'
  else clampProb (numerator / denominator)

/- ---------------------------------------------------------------------------
   The `ProbabilityCalculator` configuration: the sensor category lists passed
   to its constructor (calculations.py lines 117-142).
--------------------------------------------------------------------------- -/

structure ProbabilityCalculator where
  motion_sensors : List String
  media_devices : List String
  appliances : List String
  illuminance_sensors : List String
  humidity_sensors : List String
  temperature_sensors : List String
  door_sensors : List String
  window_sensors : List String
  lights : List String
deriving DecidableEq

/-- `get_default_prior` (calculations.py lines 91-111). -/
def get_default_prior (entity_id : String) (pc : ProbabilityCalculator) : ℚ :=
  if entity_id ∈ pc.motion_sensors then MOTION_DEFAULT_PRIOR
  else if entity_id ∈ pc.media_devices then MEDIA_DEFAULT_PRIOR
  else if entity_id ∈ pc.appliances then APPLIANCE_DEFAULT_PRIOR
  else if entity_id ∈ pc.door_sensors then DOOR_DEFAULT_PRIOR
  else if entity_id ∈ pc.window_sensors then WINDOW_DEFAULT_PRIOR
  else if entity_id ∈ pc.lights then LIGHT_DEFAULT_PRIOR
  else if entity_id ∈ pc.illuminance_sensors ∨ entity_id ∈ pc.humidity_sensors
          ∨ entity_id ∈ pc.temperature_sensors then ENVIRONMENTAL_DEFAULT_PRIOR
  else DEFAULT_PRIOR

/-- `get_sensor_priors` (calculations.py lines 594-614): category default
likelihood pair. -/
def get_sensor_priors (pc : ProbabilityCalculator) (entity_id : String) : ℚ × ℚ :=
  if entity_id ∈ pc.motion_sensors then (MOTION_PROB_GIVEN_TRUE, MOTION_PROB_GIVEN_FALSE)
  else if entity_id ∈ pc.media_devices then (MEDIA_PROB_GIVEN_TRUE, MEDIA_PROB_GIVEN_FALSE)
  else if entity_id ∈ pc.appliances then (APPLIANCE_PROB_GIVEN_TRUE, APPLIANCE_PROB_GIVEN_FALSE)
  else if entity_id ∈ pc.door_sensors then (DOOR_PROB_GIVEN_TRUE, DOOR_PROB_GIVEN_FALSE)
  else if entity_id ∈ pc.window_sensors then (WINDOW_PROB_GIVEN_TRUE, WINDOW_PROB_GIVEN_FALSE)
  else if entity_id ∈ pc.lights then (LIGHT_PROB_GIVEN_TRUE, LIGHT_PROB_GIVEN_FALSE)
  else if entity_id ∈ pc.illuminance_sensors ∨ entity_id ∈ pc.humidity_sensors
          ∨ entity_id ∈ pc.temperature_sensors then
    (ENVIRONMENTAL_PROB_GIVEN_TRUE, ENVIRONMENTAL_PROB_GIVEN_FALSE)
  else (DEFAULT_PROB_GIVEN_TRUE, DEFAULT_PROB_GIVEN_FALSE)

/-- `_is_active_now` (calculations.py lines 644-657), the live calculator's
per-category "active" predicate.  The state value is `Option String` because
the coordinator stores `None` for unavailable sensors; `none` compares unequal
to every state constant, as in Python. -/
def is_active_now (pc : ProbabilityCalculator) (entity_id : String)
    (state : Option String) : Bool :=
  if entity_id ∈ pc.motion_sensors then state = some "on"
  else if entity_id ∈ pc.media_devices then state = some "playing" ∨ state = some "paused"
  else if entity_id ∈ pc.appliances then state = some "on"
  else if entity_id ∈ pc.door_sensors then state = some "off" ∨ state = some "closed"
  else if entity_id ∈ pc.window_sensors then state = some "on" ∨ state = some "open"
  else if entity_id ∈ pc.lights then state = some "on"
  else false

/-- `_is_entity_active` (calculations.py lines 308-338), the historical
analyzer's per-category "active" predicate, at its default arguments
(`env_upper_bound=None`, `is_environmental=False`) — the only form used by any
caller in the source.  Interval state values may be `None` (gap fill before the
first event), hence `Option String`. -/
def is_entity_active (pc : ProbabilityCalculator) (entity_id : String)
    (state_val : Option String) : Bool :=
  if entity_id ∈ pc.motion_sensors then state_val = some "on"
  else if entity_id ∈ pc.media_devices then
    state_val = some "playing" ∨ state_val = some "paused"
  else if entity_id ∈ pc.appliances then state_val = some "on"
  else if entity_id ∈ pc.door_sensors then state_val = some "on" ∨ state_val = some "open"
  else if entity_id ∈ pc.window_sensors then state_val = some "on" ∨ state_val = some "open"
  else if entity_id ∈ pc.lights then state_val = some "on"
  else false

/- ---------------------------------------------------------------------------
   Historical analysis: intervalization and interval union
   (calculations.py lines 340-392 and 659-724).
--------------------------------------------------------------------------- -/

/-- A recorder `State` row as used by the historical analysis: a state value
with its `last_changed` timestamp (rational seconds). -/
structure HAState where
  last_changed : ℚ
  state : String
deriving DecidableEq

/-- Key order used by `sorted(states, key=lambda s: s.last_changed)`. -/
def stateLE (a b : HAState) : Prop := a.last_changed ≤ b.last_changed

instance : DecidableRel stateLE :=
  fun a b => inferInstanceAs (Decidable (a.last_changed ≤ b.last_changed))

instance : IsTotal HAState stateLE := ⟨fun a b => le_total a.last_changed b.last_changed⟩

instance : IsTrans HAState stateLE := ⟨fun _ _ _ h h' => le_trans h h'⟩

/-- Python's `sorted` is a stable sort by key; `List.insertionSort` is stable
for the same key order, hence extensionally the same list. -/
def sortStates (l : List HAState) : List HAState := List.insertionSort stateLE l

/-- An interval `(interval_start, interval_end, state_value)`; the state value
is `none` only for the gap-filling interval produced from an empty event
list (Python `None`). -/
abbrev IntervalT := ℚ × ℚ × Option String

/-- The `for s in sorted_states` loop of `_states_to_intervals`
(calculations.py lines 349-363), as a recursion over the sorted event list.
`cs`/`cst` are the Python loop's `current_start`/`current_state`, and
`s_start` is the event time clamped below to the window start. -/
def s2iGo (start e : ℚ) : List HAState → ℚ → Option String → List IntervalT
  | [], cs, cst => if cs < e then [(cs, e, cst)] else []
  | st :: rest, cs, cst =>
      let ss := max st.last_changed start
      match cst with
      | none => s2iGo start e rest ss (some st.state)
      | some c =>
          (if cs < ss then [(cs, ss, some c)] else []) ++ s2iGo start e rest ss (some st.state)

/-- `_states_to_intervals` (calculations.py lines 340-365). -/
def states_to_intervals (states : List HAState) (start e : ℚ) : List IntervalT :=
  s2iGo start e (sortStates states) start none

/-- The ON-interval extraction of `_combine_motion_intervals` (calculations.py
lines 371-378): the `all_intervals` list, before sorting and merging. -/
def on_intervals (motion_states : List (String × List HAState)) (start e : ℚ) :
    List (ℚ × ℚ) :=
  (motion_states.map (fun p =>
    ((states_to_intervals p.2 start e).filter (fun I => I.2.2 = some "on")).map
      (fun I => (I.1, I.2.1)))).flatten

/-- Start order used by `all_intervals.sort(key=lambda x: x[0])`. -/
def startLE (a b : ℚ × ℚ) : Prop := a.1 ≤ b.1

instance : DecidableRel startLE := fun a b => inferInstanceAs (Decidable (a.1 ≤ b.1))

instance : IsTotal (ℚ × ℚ) startLE := ⟨fun a b => le_total a.1 b.1⟩

instance : IsTrans (ℚ × ℚ) startLE := ⟨fun _ _ _ h h' => le_trans h h'⟩

/-- The merge loop of `_combine_motion_intervals` (calculations.py lines
381-390): `cur` is the last element of the Python `merged` list (all earlier
elements are final once a gap has been emitted). -/
def mergeGo (cur : ℚ × ℚ) : List (ℚ × ℚ) → List (ℚ × ℚ)
  | [] => [cur]
  | i :: rest =>
      if i.1 ≤ cur.2 then mergeGo (cur.1, max cur.2 i.2) rest
      else cur :: mergeGo i rest

/-- `_combine_motion_intervals` (calculations.py lines 367-392): collect ON
intervals of every motion sensor, sort by interval start, merge
overlapping/adjacent ones. -/
def combine_motion_intervals (motion_states : List (String × List HAState))
    (start e : ℚ) : List (ℚ × ℚ) :=
  match List.insertionSort startLE (on_intervals motion_states start e) with
  | [] => []
  | i :: rest => mergeGo i rest

/-- `_compute_state_durations` (calculations.py lines 659-672), read off at a
single state value `v`: the dict built there maps each state value to the
summed length of its intervals across all sensors, with absent keys read as
`0.0` by `.get`. -/
def durationsAt (states_dict : List (String × List HAState)) (start e : ℚ)
    (v : Option String) : ℚ :=
  (states_dict.map (fun p =>
    (((states_to_intervals p.2 start e).filter (fun I => I.2.2 = v)).map
      (fun I => I.2.1 - I.1)).sum)).sum

/-- `_calculate_conditional_probability` (calculations.py lines 674-724). -/
def calculate_conditional_probability (pc : ProbabilityCalculator) (entity_id : String)
    (entity_states : List HAState) (motion_states : List (String × List HAState))
    (motion_state_filter : String) (start e : ℚ) : ℚ :=
  let motion_intervals :=
    (motion_states.map (fun p =>
      ((states_to_intervals p.2 start e).filter
          (fun I => I.2.2 = some motion_state_filter)).map
        (fun I => (I.1, I.2.1)))).flatten
  let total_motion_duration := (motion_intervals.map (fun I => I.2 - I.1)).sum
  if total_motion_duration = 0 then
    if motion_state_filter = "on" then DEFAULT_PROB_GIVEN_TRUE else DEFAULT_PROB_GIVEN_FALSE
  else
    let entity_intervals :=
      ((states_to_intervals entity_states start e).filter
          (fun I => is_entity_active pc entity_id I.2.2)).map (fun I => (I.1, I.2.1))
    let overlap_duration :=
      (entity_intervals.map (fun ei =>
        (motion_intervals.map (fun mi =>
          let os := max ei.1 mi.1
          let oe := min ei.2 mi.2
          if os < oe then oe - os else 0)).sum)).sum
    clampProb (overlap_duration / total_motion_duration)

/- ---------------------------------------------------------------------------
   The learned-priors store (coordinator.learned_priors) and `calculate_prior`.
--------------------------------------------------------------------------- -/

/-- One `coordinator.learned_priors` entry.  The `prior` key is optional:
`_get_sensor_prior` explicitly checks `"prior" in priors`.  The `last_updated`
bookkeeping string is irrelevant to every claim and omitted. -/
structure LearnedPrior where
  prob_given_true : ℚ
  prob_given_false : ℚ
  prior : Option ℚ

/-- The coordinator's `learned_priors` dict, modelled by its lookup
function. -/
def Store := String → Option LearnedPrior

/-- `AreaOccupancyCoordinator.update_learned_priors` (coordinator.py lines
720-730): overwrite the entry for `entity_id` with the given triple. -/
def update_learned_priors (store : Store) (entity_id : String)
    (p_true p_false prior : ℚ) : Store :=
  fun id => if id = entity_id then some ⟨p_true, p_false, some prior⟩ else store id

/-- The motion-state fetch loop of `calculate_prior` (calculations.py lines
186-192): keep each motion sensor whose recorder history is truthy (the
recorder returning `None` and returning `[]` are both falsy, so both are
modelled by the empty list). -/
def motionStatesOf (pc : ProbabilityCalculator) (histories : String → List HAState) :
    List (String × List HAState) :=
  (pc.motion_sensors.filter (fun m => histories m ≠ [])).map (fun m => (m, histories m))

/-- `calculate_prior` (calculations.py lines 177-252).  `histories` stands for
`_get_states_from_recorder` over the fixed window.  The store is threaded
explicitly: the success path performs the `update_learned_priors` side effect
on the coordinator, the three fail-soft paths return it unchanged. -/
def calculate_prior (pc : ProbabilityCalculator) (histories : String → List HAState)
    (entity_id : String) (start e : ℚ) (store : Store) : (ℚ × ℚ × ℚ) × Store :=
  let motion_states := motionStatesOf pc histories
  if motion_states = [] then
    ((DEFAULT_PROB_GIVEN_TRUE, DEFAULT_PROB_GIVEN_FALSE, get_default_prior entity_id pc), store)
  else
    let entity_states := histories entity_id
    if entity_states = [] then
      ((DEFAULT_PROB_GIVEN_TRUE, DEFAULT_PROB_GIVEN_FALSE, get_default_prior entity_id pc), store)
    else
      let total_motion_active_time := durationsAt motion_states start e (some "on")
      let total_motion_inactive_time := durationsAt motion_states start e (some "off")
      let total_motion_time := total_motion_active_time + total_motion_inactive_time
      if total_motion_time = 0 then
        ((DEFAULT_PROB_GIVEN_TRUE, DEFAULT_PROB_GIVEN_FALSE, get_default_prior entity_id pc),
          store)
      else
        let prior := clampProb (total_motion_active_time / total_motion_time)
        let prob_given_true :=
          calculate_conditional_probability pc entity_id entity_states motion_states "on" start e
        let prob_given_false :=
          calculate_conditional_probability pc entity_id entity_states motion_states "off" start e
        ((prob_given_true, prob_given_false, prior),
          update_learned_priors store entity_id prob_given_true prob_given_false prior)

/- ---------------------------------------------------------------------------
   The live calculator: `calculate` (calculations.py lines 501-592) and its
   helpers, plus the coordinator pieces it relies on.
--------------------------------------------------------------------------- -/

/-- One entry of the coordinator's `_sensor_states` dict: the coordinator
stores `state: None` when the sensor is unavailable. -/
structure SensorState where
  state : Option String
  availability : Bool
deriving DecidableEq

/-- One entry of a timeslot's `entities` list (produced by
`_process_timeslot`). -/
structure SlotEntity where
  id : String
  prob_given_true : ℚ
  prob_given_false : ℚ
deriving DecidableEq

/-- A timeslot dict produced by `_process_timeslot`: it always carries an
`entities` list, and the combined `(prob_given_true, prob_given_false)` pair
only when that list is non-empty. -/
structure SlotData where
  entities : List SlotEntity
  combined : Option (ℚ × ℚ)
deriving DecidableEq

/-- The `ProbabilityResult` dict returned by `calculate`.  `global_decay` is
the single `"global_decay"` entry of `decay_status`; `device_states` is the
constant empty dict and is omitted. -/
structure ProbabilityResult where
  probability : ℚ
  prior_probability : ℚ
  active_triggers : List String
  sensor_probabilities : List (String × ℚ)
  global_decay : ℚ
  sensor_availability : List (String × Bool)
  is_occupied : Bool

/-- Outcome of one `calculate` call: the returned result, the coordinator's
learned-priors store afterwards, and the coordinator's
`_last_positive_trigger` afterwards (`set_last_positive_trigger`). -/
structure CalcOut where
  result : ProbabilityResult
  learned : Store
  last_positive_trigger : Option ℚ

/-- `_get_sensor_priors_from_history` (calculations.py lines 616-623). -/
def get_sensor_priors_from_history (store : Store) (entity_id : String) :
    Option (ℚ × ℚ) :=
  match store entity_id with
  | some lp => some (lp.prob_given_true, lp.prob_given_false)
  | none => none

/-- `get_timeslot_probabilities` (calculations.py lines 625-636): first
`entities` entry with a matching id, if the slot dict is truthy. -/
def get_timeslot_probabilities (entity_id : String) (timeslot : Option SlotData) :
    Option (ℚ × ℚ) :=
  match timeslot with
  | some sd =>
      match sd.entities.find? (fun en => en.id = entity_id) with
      | some en => some (en.prob_given_true, en.prob_given_false)
      | none => none
  | none => none

/-- `_get_sensor_prior` (calculations.py lines 638-642): learned `prior` when
present, category default otherwise. -/
def get_sensor_prior (pc : ProbabilityCalculator) (store : Store)
    (entity_id : String) : ℚ :=
  match store entity_id with
  | some lp =>
      match lp.prior with
      | some p => p
      | none => get_default_prior entity_id pc
  | none => get_default_prior entity_id pc

/-- `AreaOccupancyCoordinator.get_threshold_decimal` (coordinator.py lines
704-707): the stored 0-100 threshold normalized to 0-1. -/
def get_threshold_decimal (threshold : ℚ) : ℚ := threshold / 100

/-- The determination of `previous_probability` at the top of `calculate`
(calculations.py lines 511-515): the coordinator's previous result
probability, or the global default prior when there is none. -/
def prevOf (data : Option ℚ) : ℚ :=
  match data with
  | some p => p
  | none => DEFAULT_PRIOR

/-- One iteration of the `for entity_id, state in sensor_states.items()` loop
of `calculate` (calculations.py lines 521-541).  The accumulator carries
`(current_probability, active_triggers, sensor_probs)`.  Unavailable (or
falsy) sensor state dicts are skipped. -/
def calcStep (pc : ProbabilityCalculator) (store : Store) (timeslot : Option SlotData)
    (acc : ℚ × List String × List (String × ℚ)) (entry : String × SensorState) :
    ℚ × List String × List (String × ℚ) :=
  if entry.2.availability = false then acc
  else
    let resolved : ℚ × ℚ × ℚ :=
      match get_sensor_priors_from_history store entry.1 with
      | some (pt, pf) => (pt, pf, get_sensor_prior pc store entry.1)
      | none =>
          match get_timeslot_probabilities entry.1 timeslot with
          | some (pt, pf) => (pt, pf, get_sensor_prior pc store entry.1)
          | none =>
              let pp := get_sensor_priors pc entry.1
              (pp.1, pp.2, get_default_prior entry.1 pc)
    let is_active := is_active_now pc entry.1 entry.2.state
    let cur' :=
      if is_active then update_probability resolved.2.2 resolved.1 resolved.2.1 else acc.1
    let trig' := if is_active then acc.2.1 ++ [entry.1] else acc.2.1
    (cur', trig', acc.2.2 ++ [(entry.1, cur')])

/-- Floor of a rational, computed through `Int.fdiv` so that it reduces. -/
def ratFloor (q : ℚ) : ℤ := Int.fdiv q.num (q.den : ℤ)

/-- Round-half-to-even to an integer, the semantics of Python's `round`. -/
def roundHalfEven (q : ℚ) : ℤ :=
  let n := ratFloor q
  let f := q - (n : ℚ)
  if f < 1/2 then n
  else if (1 : ℚ)/2 < f then n + 1
  else if n % 2 = 0 then n else n + 1

/-- Python's `round(x, 4)`, modelled exactly on rationals (the spec-level
claims never depend on the binary-float artifacts of the host `round`). -/
def round4 (x : ℚ) : ℚ := (roundHalfEven (x * 10000) : ℚ) / 10000

/-- `calculate` (calculations.py lines 501-592).  `explike` stands for the
host `math.exp`; `data` is `coordinator.data` reduced to its `"probability"`
entry; `threshold`, `decay_min_delay`, `decay_window`, `now` and
`last_trigger` are the values the coordinator hands back through its getter
methods; the store is the coordinator's `learned_priors` dict (returned
unchanged: `calculate` only reads it). -/
def calculate (explike : ℚ → ℚ) (pc : ProbabilityCalculator) (store : Store)
    (data : Option ℚ) (threshold decay_min_delay decay_window now : ℚ)
    (last_trigger : Option ℚ) (timeslot : Option SlotData)
    (sensor_states : List (String × SensorState)) : CalcOut :=
  let previous_probability := prevOf data
  let loopOut := sensor_states.foldl (calcStep pc store timeslot) (previous_probability, [], [])
  let cp := clampProb loopOut.1
  let after :=
    if loopOut.2.1 ≠ [] then (cp, (0 : ℚ), some now)
    else
      match last_trigger with
      | some lt =>
          let elapsed := now - lt
          if elapsed > decay_min_delay ∧ elapsed > 0 ∧ decay_window > 0 then
            let decay_factor := explike (-DECAY_LAMBDA * (elapsed / decay_window))
            (clampProb (cp * decay_factor), round4 (1 - decay_factor), last_trigger)
          else (cp, (0 : ℚ), last_trigger)
      | none => (cp, (0 : ℚ), last_trigger)
  { result :=
      { probability := after.1
        prior_probability := 0
        active_triggers := loopOut.2.1
        sensor_probabilities := loopOut.2.2
        global_decay := after.2.1
        sensor_availability := sensor_states.map (fun p => (p.1, p.2.availability))
        is_occupied := decide (after.1 ≥ get_threshold_decimal threshold) }
    learned := store
    last_positive_trigger := after.2.2 }

/-- `AreaOccupancyCoordinator._async_minimal_update` (coordinator.py lines
669-682): the startup result. -/
def async_minimal_update (sensor_states : List (String × SensorState)) :
    ProbabilityResult :=
  { probability := 0
    prior_probability := 0
    active_triggers := []
    sensor_probabilities := []
    global_decay := 0
    sensor_availability := sensor_states.map (fun p => (p.1, p.2.availability))
    is_occupied := false }

/-- A bounded `deque(maxlen=n)` append: add on the right, dropping from the
left when full. -/
def dequeAppend {α : Type} (maxlen : ℕ) (l : List α) (x : α) : List α :=
  let l' := l ++ [x]
  l'.drop (l'.length - maxlen)

/-- The coordinator's historical-tracking state mutated by
`_update_historical_tracking`. -/
structure TrackingState where
  probability_history : List ℚ
  occupancy_history : List Bool
  last_occupied : Option ℚ
  last_state_change : Option ℚ

/-- `AreaOccupancyCoordinator._update_historical_tracking` (coordinator.py
lines 373-389).  `threshold` is `options_config["threshold"]`, used RAW here
(the source does not normalize it in this method). -/
def update_historical_tracking (threshold : ℚ) (ts : TrackingState) (now : ℚ)
    (result : ProbabilityResult) : TrackingState :=
  let ph := dequeAppend 12 ts.probability_history result.probability
  let is_occupied := decide (result.probability ≥ threshold)
  let oh := dequeAppend 288 ts.occupancy_history is_occupied
  let lo := if is_occupied then some now else ts.last_occupied
  let lsc :=
    if ts.last_state_change = none
        ∨ (oh.length > 1 ∧ (oh.drop (oh.length - 2)).head? ≠ some is_occupied) then
      some now
    else ts.last_state_change
  ⟨ph, oh, lo, lsc⟩

/- ---------------------------------------------------------------------------
   Timeslot analysis: `calculate_timeslots` / `_process_timeslot`
   (calculations.py lines 406-499) and the coordinator's slot lookup
   (coordinator.py lines 347-363).
--------------------------------------------------------------------------- -/

/-- Ceiling of a rational, via `ratFloor`. -/
def ratCeil (q : ℚ) : ℤ := -(ratFloor (-q))

/-- `current.replace(hour=h, minute=m, second=0, microsecond=0)` on a UTC
timestamp in rational seconds: floor to the start of the day, then add the
wall-clock offset. -/
def replaceTime (t : ℚ) (h m : ℕ) : ℚ :=
  86400 * (ratFloor (t / 86400) : ℚ) + h * 3600 + m * 60

/-- The `while current < end_time` day loop inside `_process_timeslot`
(calculations.py lines 445-458).  The loop advances `current` by exactly one
day per iteration, so its iteration count is `⌈(end - current)/86400⌉`; that
count is passed as structural fuel, and the loop guard `current < e` is kept
verbatim (at fuel 0 the guard is false as well, so the two agree). -/
def dailyGo (pc : ProbabilityCalculator) (histories : String → List HAState)
    (entity_id : String) (e : ℚ) (h m : ℕ) :
    ℕ → ℚ → Store → (List (ℚ × ℚ)) × Store
  | 0, _, store => ([], store)
  | fuel + 1, current, store =>
      if current < e then
        let slot_start := replaceTime current h m
        let slot_end := slot_start + 1800
        if slot_end > e then ([], store)
        else
          let pr := calculate_prior pc histories entity_id slot_start slot_end store
          let rest := dailyGo pc histories entity_id e h m fuel (current + 86400) pr.2
          ((pr.1.1, pr.1.2.1) :: rest.1, rest.2)
      else ([], store)

/-- The per-entity `daily_probs` collection of `_process_timeslot`, started at
`current = start_time`. -/
def daily_probs (pc : ProbabilityCalculator) (histories : String → List HAState)
    (entity_id : String) (start e : ℚ) (h m : ℕ) (store : Store) :
    (List (ℚ × ℚ)) × Store :=
  dailyGo pc histories entity_id e h m (ratCeil ((e - start) / 86400)).toNat start store

/-- `_process_timeslot` (calculations.py lines 428-499): average each
entity's per-day likelihood pairs (clamped, rounded to 4 places for the
`entities` list), multiplying the unrounded clamped averages into the
combined pair, which is attached only when some entity produced data. -/
def process_timeslot (pc : ProbabilityCalculator) (histories : String → List HAState)
    (entity_ids : List String) (start e : ℚ) (h m : ℕ) (store : Store) :
    SlotData × Store :=
  let step := fun (acc : List SlotEntity × ℚ × ℚ × Store) (entity_id : String) =>
    let dp := daily_probs pc histories entity_id start e h m acc.2.2.2
    if dp.1 = [] then (acc.1, acc.2.1, acc.2.2.1, dp.2)
    else
      let n : ℚ := dp.1.length
      let avg_prob_true := clampProb ((dp.1.map Prod.fst).sum / n)
      let avg_prob_false := clampProb ((dp.1.map Prod.snd).sum / n)
      (acc.1 ++ [⟨entity_id, round4 avg_prob_true, round4 avg_prob_false⟩],
        acc.2.1 * avg_prob_true, acc.2.2.1 * avg_prob_false, dp.2)
  let out := entity_ids.foldl step ([], 1, 1, store)
  if out.1 = [] then (⟨[], none⟩, out.2.2.2)
  else
    (⟨out.1, some (round4 (clampProb out.2.1), round4 (clampProb out.2.2.1))⟩, out.2.2.2)

/-- A value of the dynamically-typed dict returned by `calculate_timeslots`:
the rebuild path stores a slots map under `"slots"` and a timestamp under
`"last_updated"`, while the early-return path hands back the raw cache whose
values are the slot dicts themselves. -/
inductive TSVal where
  | slots : List (String × SlotData) → TSVal
  | time : ℚ → TSVal
  | slot : SlotData → TSVal

/-- The calculator's timeslot cache state: `_cache` and
`_last_cache_update`. -/
structure TimeslotCache where
  cache : List (String × SlotData)
  last_cache_update : Option ℚ

/-- `_needs_cache_update` (calculations.py lines 152-156);
`CACHE_DURATION` is 6 hours = 21600 seconds. -/
def needs_cache_update (st : TimeslotCache) (now : ℚ) : Bool :=
  match st.last_cache_update with
  | none => true
  | some t => decide (now - t > 21600)

/-- Python dict assignment `d[k] = v` on an association list: replace in
place if the key exists, append otherwise. -/
def dictInsert (l : List (String × SlotData)) (k : String) (v : SlotData) :
    List (String × SlotData) :=
  if (l.lookup k).isSome then l.map (fun p => if p.1 = k then (k, v) else p)
  else l ++ [(k, v)]

/-- The `f"{hour:02d}"` two-digit rendering. -/
def twoDigits (n : ℕ) : String := (if n < 10 then "0" else "") ++ toString n

/-- The `f"{hour:02d}:{minute:02d}"` bucket key. -/
def timeKey (h m : ℕ) : String := twoDigits h ++ ":" ++ twoDigits m

/-- `calculate_timeslots` (calculations.py lines 406-426).  When the cache is
fresh it returns `self._cache` itself (the raw bucket map); otherwise it
rebuilds all 48 half-hour slots, updates the cache, stamps
`_last_cache_update`, and returns the `{"slots": …, "last_updated": …}`
dict.  The two `dt_util.utcnow()` readings within one call are modelled by the
single instant `now`. -/
def calculate_timeslots (pc : ProbabilityCalculator) (histories : String → List HAState)
    (entity_ids : List String) (history_period : ℕ) (st : TimeslotCache) (now : ℚ)
    (store : Store) : List (String × TSVal) × TimeslotCache × Store :=
  if needs_cache_update st now = false then
    (st.cache.map (fun p => (p.1, TSVal.slot p.2)), st, store)
  else
    let start := now - history_period * 86400
    let slotKeys := ((List.range 24).map (fun h => [(h, 0), (h, 30)])).flatten
    let step := fun (acc : List (String × SlotData) × List (String × SlotData) × Store)
        (hm : ℕ × ℕ) =>
      let ps := process_timeslot pc histories entity_ids start now hm.1 hm.2 acc.2.2
      let k := timeKey hm.1 hm.2
      (acc.1 ++ [(k, ps.1)], dictInsert acc.2.1 k ps.1, ps.2)
    let out := slotKeys.foldl step ([], st.cache, store)
    ([("slots", TSVal.slots out.1), ("last_updated", TSVal.time now)],
      ⟨out.2.1, some now⟩, out.2.2)

/-- The coordinator's slot lookup in `_async_update_data` (coordinator.py
lines 352-357): `self._timeslot_data.get("slots", {}).get(slot_key, {})`.
The empty dict it falls back to is falsy, which is what a `none` timeslot
means to `calculate`. -/
def coordinator_current_slot (timeslot_data : List (String × TSVal))
    (slot_key : String) : Option SlotData :=
  match timeslot_data.lookup "slots" with
  | some (TSVal.slots m) => m.lookup slot_key
  | _ => none

/- ---------------------------------------------------------------------------
   Concrete instances used by the per-claim theorems, and the tiling
   predicate for the intervalization statements.
--------------------------------------------------------------------------- -/

/-- A calculator configured with a single door sensor. -/
def doorCalc : ProbabilityCalculator :=
  ⟨[], [], [], [], [], [], ["binary_sensor.front_door"], [], []⟩

/-- A calculator with no configured sensors (sensor categories are irrelevant
to the C7 scenario). -/
def emptyCalc : ProbabilityCalculator := ⟨[], [], [], [], [], [], [], [], []⟩

/-- The empty learned-priors store. -/
def store0 : Store := fun _ => none

/-- A concrete `calculate` cycle for C7: previous probability 0.6, threshold
50 (percent), no sensors, no pending decay trigger. -/
def c7run : CalcOut :=
  calculate (fun _ => 1) emptyCalc store0 (some (3/5)) 50 60 600 0 none none []

/-- A calculator with one motion sensor and one media player. -/
def c1calc : ProbabilityCalculator :=
  ⟨["binary_sensor.motion_a"], ["media_player.tv"], [], [], [], [], [], [], []⟩

/-- Sensor snapshot with both the motion sensor and the media player available
and active. -/
def c1states : List (String × SensorState) :=
  [("binary_sensor.motion_a", ⟨some "on", true⟩),
   ("media_player.tv", ⟨some "playing", true⟩)]

/-- A concrete `calculate` cycle for C2 (any cycle will do). -/
def c2run : CalcOut :=
  calculate (fun _ => 1) emptyCalc store0 (some (1/2)) 50 60 600 0 none none
    [("binary_sensor.motion_a", ⟨some "off", true⟩)]

/-- A concrete `calculate` cycle for C3: one available, active motion sensor
is processed, starting from an empty learned-priors store. -/
def c3run : CalcOut :=
  calculate (fun _ => 1) c1calc store0 (some (1/2)) 50 60 600 0 none none
    [("binary_sensor.motion_a", ⟨some "on", true⟩)]

/-- The calculator configuration for the C3 witness: one motion sensor and one
light. -/
def c3calc : ProbabilityCalculator :=
  ⟨["binary_sensor.motion_a"], [], [], [], [], [], [], [], ["light.desk"]⟩

/-- Recorder histories for the C3 witness: both entities have one "on" event
at the window start. -/
def c3histories : String → List HAState := fun id =>
  if id = "binary_sensor.motion_a" then [⟨0, "on"⟩]
  else if id = "light.desk" then [⟨0, "on"⟩]
  else []

/-- A calculator with a single motion sensor, for C5. -/
def c5calc : ProbabilityCalculator :=
  ⟨["binary_sensor.motion_a"], [], [], [], [], [], [], [], []⟩

/-- Sensor snapshot for the C8 scenario: one available, inactive motion
sensor. -/
def c8states : List (String × SensorState) :=
  [("binary_sensor.motion_a", ⟨some "off", true⟩)]

/-- `Tiles l a b`: the intervals of `l` are contiguous, non-degenerate, and
tile `[a, b]` exactly — the first starts at `a`, each starts where the
previous one ends, and the last ends at `b`. -/
def Tiles : List IntervalT → ℚ → ℚ → Prop
  | [], a, b => a = b
  | I :: rest, a, b => I.1 = a ∧ I.1 < I.2.1 ∧ Tiles rest I.2.1 b

/-- A cached slot entry for C10. -/
def c10slot : SlotData := ⟨[⟨"light.desk", 1/4, 1/50⟩], none⟩

/-- A warm timeslot cache last rebuilt at t = 0. -/
def c10fresh : TimeslotCache := ⟨[("00:00", c10slot)], some 0⟩

/-- A cold timeslot cache (never rebuilt). -/
def c10stale : TimeslotCache := ⟨[], none⟩

/- ---------------------------------------------------------------------------
   General helper lemmas.
--------------------------------------------------------------------------- -/

lemma min_le_max_prob : MIN_PROBABILITY ≤ MAX_PROBABILITY := by
  norm_num [MIN_PROBABILITY, MAX_PROBABILITY]

lemma clampProb_lb (x : ℚ) : MIN_PROBABILITY ≤ clampProb x := le_max_left _ _

lemma clampProb_ub (x : ℚ) : clampProb x ≤ MAX_PROBABILITY :=
  max_le min_le_max_prob (min_le_right _ _)

lemma clampProb_of_mem {x : ℚ} (h1 : MIN_PROBABILITY ≤ x) (h2 : x ≤ MAX_PROBABILITY) :
    clampProb x = x := by
  unfold clampProb
  rw [min_eq_left h2, max_eq_right h1]

lemma clampProb_mono {x y : ℚ} (h : x ≤ y) : clampProb x ≤ clampProb y :=
  max_le_max le_rfl (min_le_min h le_rfl)

lemma update_probability_lb (a b c : ℚ) : MIN_PROBABILITY ≤ update_probability a b c := by
  unfold update_probability
  dsimp only
  split
  · exact clampProb_lb a
  · exact clampProb_lb _

lemma update_probability_ub (a b c : ℚ) : update_probability a b c ≤ MAX_PROBABILITY := by
  unfold update_probability
  dsimp only
  split
  · exact clampProb_ub a
  · exact clampProb_ub _

/- ---------------------------------------------------------------------------
   C4: the two per-category "is active" predicates on door sensors.
--------------------------------------------------------------------------- -/

/-- C4: the claim that door-sensor "active" is one consistent OFF/CLOSED
convention across the engine fails: the live predicate `_is_active_now` counts
a door active exactly on OFF/CLOSED, but the historical predicate
`_is_entity_active` counts it active exactly on ON/OPEN, so the two disagree
at the door states "off" and "on" (evaluated here at a concrete door
sensor). -/
theorem C4_door_active_predicates_disagree :
    is_active_now doorCalc "binary_sensor.front_door" (some "off") = true
    ∧ is_entity_active doorCalc "binary_sensor.front_door" (some "off") = false
    ∧ is_active_now doorCalc "binary_sensor.front_door" (some "on") = false
    ∧ is_entity_active doorCalc "binary_sensor.front_door" (some "on") = true := by
  refine ⟨?_, ?_, ?_, ?_⟩ <;> decide

/- ---------------------------------------------------------------------------
   C7: threshold normalization in `calculate` versus the raw comparison in
   `_update_historical_tracking`.
--------------------------------------------------------------------------- -/

/-- C7: the configured threshold is percent-valued and `calculate` normalizes
it (`is_occupied` compares against `threshold / 100`), but the occupancy
boolean `_update_historical_tracking` appends to the coordinator's occupancy
history compares the probability against the RAW threshold: at threshold 50
and probability 0.6 the result says occupied while the history records
not-occupied, so the two comparisons are not the same. -/
theorem C7_threshold_comparison_mismatch :
    get_threshold_decimal 50 = 1/2
    ∧ c7run.result.probability = 3/5
    ∧ c7run.result.is_occupied = true
    ∧ (update_historical_tracking 50 ⟨[], [], none, none⟩ 0 c7run.result).occupancy_history
        = [false] := by
  refine ⟨by norm_num [get_threshold_decimal], ?_, ?_, ?_⟩
  · norm_num [c7run, calculate, prevOf, clampProb, MIN_PROBABILITY, MAX_PROBABILITY]
  · norm_num [c7run, calculate, prevOf, clampProb, get_threshold_decimal,
      MIN_PROBABILITY, MAX_PROBABILITY]
  · norm_num [c7run, calculate, prevOf, clampProb, update_historical_tracking, dequeAppend,
      MIN_PROBABILITY, MAX_PROBABILITY]

/- ---------------------------------------------------------------------------
   C1: the Bayesian loop of `calculate` and its running posterior.
--------------------------------------------------------------------------- -/

set_option maxHeartbeats 1000000 in
/-- C1: the claim that each active sensor's Bayesian update takes the current
running posterior as its prior fails on the code: with two active sensors and
previous probability 0.9 (and equally 0.1), the final probability is
`update_probability` of the LAST sensor's own default prior
(0.30 for media, giving 75/89), identical for both previous probabilities —
so the final value ignores the previous probability and every earlier active
sensor, and is not the chained posterior (updating 9/10 through the media
likelihoods would give 45/46 ≠ 75/89). -/
theorem C1_calculate_ignores_running_posterior :
    (calculate (fun _ => 1) c1calc store0 (some (9/10)) 50 60 600 0 none none
        c1states).result.probability = 75/89
    ∧ (calculate (fun _ => 1) c1calc store0 (some (1/10)) 50 60 600 0 none none
        c1states).result.probability = 75/89
    ∧ update_probability MEDIA_DEFAULT_PRIOR MEDIA_PROB_GIVEN_TRUE MEDIA_PROB_GIVEN_FALSE
        = (75/89 : ℚ)
    ∧ update_probability (9/10) MEDIA_PROB_GIVEN_TRUE MEDIA_PROB_GIVEN_FALSE
        ≠ (75/89 : ℚ) := by
  have h1 : ("media_player.tv" : String) ≠ "binary_sensor.motion_a" := by decide
  have h2 : ("playing" : String) ≠ "on" := by decide
  have h3 : ("playing" : String) ≠ "paused" := by decide
  refine ⟨?_, ?_, ?_, ?_⟩ <;>
    norm_num [calculate, calcStep, c1calc, c1states, store0, prevOf, h1, h2, h3,
      get_sensor_priors_from_history, get_timeslot_probabilities, get_sensor_prior,
      get_sensor_priors, get_default_prior, is_active_now, update_probability, clampProb,
      MEDIA_PROB_GIVEN_TRUE, MEDIA_PROB_GIVEN_FALSE, MEDIA_DEFAULT_PRIOR,
      MOTION_PROB_GIVEN_TRUE, MOTION_PROB_GIVEN_FALSE, MOTION_DEFAULT_PRIOR,
      MIN_PROBABILITY, MAX_PROBABILITY, List.cons_ne_nil]

/- ---------------------------------------------------------------------------
   C2: clamping of the produced probability values.
--------------------------------------------------------------------------- -/

/-- C2 counterexample: not every probability field of a `ProbabilityResult`
lies in [0.01, 0.99]: the `prior_probability` field returned by `calculate` is
the constant 0.0, and the startup result of `_async_minimal_update` has
probability 0.0 — both strictly below the lower clamping bound. -/
theorem C2_prior_probability_unclamped :
    c2run.result.prior_probability = 0
    ∧ ¬ MIN_PROBABILITY ≤ c2run.result.prior_probability
    ∧ (async_minimal_update []).probability = 0
    ∧ ¬ MIN_PROBABILITY ≤ (async_minimal_update []).probability := by
  refine ⟨rfl, ?_, rfl, ?_⟩ <;>
    norm_num [c2run, calculate, async_minimal_update, MIN_PROBABILITY]

lemma calcStep_probs_mem (pc : ProbabilityCalculator) (store : Store)
    (ts : Option SlotData) :
    ∀ (l : List (String × SensorState)) (cur : ℚ) (trig : List String)
      (probs : List (String × ℚ)),
      MIN_PROBABILITY ≤ cur → cur ≤ MAX_PROBABILITY →
      (∀ p ∈ probs, MIN_PROBABILITY ≤ p.2 ∧ p.2 ≤ MAX_PROBABILITY) →
      ∀ p ∈ (l.foldl (calcStep pc store ts) (cur, trig, probs)).2.2,
        MIN_PROBABILITY ≤ p.2 ∧ p.2 ≤ MAX_PROBABILITY := by
  intro l
  induction l with
  | nil => intro cur trig probs h1 h2 h3 p hp; exact h3 p hp
  | cons hd tl ih =>
      intro cur trig probs h1 h2 h3 p hp
      rw [List.foldl_cons] at hp
      by_cases hav : hd.2.availability = false
      · exact ih cur trig probs h1 h2 h3 p (by simpa [calcStep, hav] using hp)
      · simp only [calcStep, hav, if_false] at hp
        by_cases hact : is_active_now pc hd.1 hd.2.state = true
        · refine ih _ _ _ (update_probability_lb _ _ _) (update_probability_ub _ _ _)
            ?_ p (by simpa [hact] using hp)
          intro q hq
          rcases List.mem_append.mp hq with hq | hq
          · exact h3 q hq
          · rcases List.mem_singleton.mp hq with rfl
            simp only [hact, if_true]
            exact ⟨update_probability_lb _ _ _, update_probability_ub _ _ _⟩
        · rw [Bool.not_eq_true] at hact
          refine ih cur trig _ h1 h2 ?_ p (by simpa [hact] using hp)
          intro q hq
          rcases List.mem_append.mp hq with hq | hq
          · exact h3 q hq
          · rcases List.mem_singleton.mp hq with rfl
            simp only [hact]
            exact ⟨h1, h2⟩

/-- C2 amended: the final `probability` returned by `calculate` always lies in
[0.01, 0.99]; the `sensor_probabilities` entries lie in that interval whenever
the previous probability does; but the `prior_probability` field is the
constant 0.0 and the startup `_async_minimal_update` result carries
probability 0.0, both outside the interval. -/
theorem C2_final_probability_clamped (explike : ℚ → ℚ) (pc : ProbabilityCalculator)
    (store : Store) (data : Option ℚ) (threshold dm dw now : ℚ)
    (lt : Option ℚ) (ts : Option SlotData) (ss : List (String × SensorState)) :
    (MIN_PROBABILITY ≤ (calculate explike pc store data threshold dm dw now lt ts
        ss).result.probability
      ∧ (calculate explike pc store data threshold dm dw now lt ts
          ss).result.probability ≤ MAX_PROBABILITY)
    ∧ (calculate explike pc store data threshold dm dw now lt ts
        ss).result.prior_probability = 0
    ∧ (MIN_PROBABILITY ≤ prevOf data → prevOf data ≤ MAX_PROBABILITY →
        ∀ p ∈ (calculate explike pc store data threshold dm dw now lt ts
            ss).result.sensor_probabilities,
          MIN_PROBABILITY ≤ p.2 ∧ p.2 ≤ MAX_PROBABILITY)
    ∧ (async_minimal_update ss).probability = 0 := by
  refine ⟨?_, rfl, ?_, rfl⟩
  · unfold calculate
    dsimp only
    split
    · exact ⟨clampProb_lb _, clampProb_ub _⟩
    · split
      · split
        · exact ⟨clampProb_lb _, clampProb_ub _⟩
        · exact ⟨clampProb_lb _, clampProb_ub _⟩
      · exact ⟨clampProb_lb _, clampProb_ub _⟩
  · intro h1 h2 p hp
    unfold calculate at hp
    dsimp only at hp
    exact calcStep_probs_mem pc store ts ss (prevOf data) [] [] h1 h2
      (by intro q hq; cases hq) p hp

/-- C2 amended, witness: the clamping facts evaluated on the concrete C2
cycle (previous probability 1/2, one available inactive motion sensor). -/
theorem C2_final_probability_clamped_witness :
    (MIN_PROBABILITY ≤ c2run.result.probability
      ∧ c2run.result.probability ≤ MAX_PROBABILITY)
    ∧ ∀ p ∈ c2run.result.sensor_probabilities,
        MIN_PROBABILITY ≤ p.2 ∧ p.2 ≤ MAX_PROBABILITY := by
  have h := C2_final_probability_clamped (fun _ => 1) emptyCalc store0 (some (1/2))
    50 60 600 0 none none [("binary_sensor.motion_a", ⟨some "off", true⟩)]
  exact ⟨h.1, h.2.2.1 (by norm_num [prevOf, MIN_PROBABILITY])
    (by norm_num [prevOf, MAX_PROBABILITY])⟩

/- ---------------------------------------------------------------------------
   C3: where the learned-prior write-back happens.
--------------------------------------------------------------------------- -/

/-- C3 counterexample: a `calculate` call that processes (and even fires on) a
sensor entity writes nothing into the learned-priors store — the resolved
triple for `binary_sensor.motion_a` is used for the Bayesian update, yet the
store still has no entry for it afterwards. -/
theorem C3_calculate_writes_no_priors :
    c3run.result.active_triggers = ["binary_sensor.motion_a"]
    ∧ c3run.result.sensor_probabilities ≠ []
    ∧ c3run.learned "binary_sensor.motion_a" = none := by
  refine ⟨?_, ?_, rfl⟩ <;>
    norm_num [c3run, calculate, calcStep, c1calc, store0, prevOf,
      get_sensor_priors_from_history, get_timeslot_probabilities, get_sensor_prior,
      get_sensor_priors, get_default_prior, is_active_now,
      MOTION_PROB_GIVEN_TRUE, MOTION_PROB_GIVEN_FALSE, MOTION_DEFAULT_PRIOR]

/-- C3 amended: the (p_true, p_false, prior) write-back through the
coordinator's `update_learned_priors` hook is performed by `calculate_prior`
(on its successful path), not by `calculate`, which returns the store
unchanged on every input. -/
theorem C3_prior_writeback_in_calculate_prior (pc : ProbabilityCalculator)
    (histories : String → List HAState) (entity_id : String) (start e : ℚ)
    (store : Store)
    (hm : motionStatesOf pc histories ≠ [])
    (he : histories entity_id ≠ [])
    (ht : durationsAt (motionStatesOf pc histories) start e (some "on")
        + durationsAt (motionStatesOf pc histories) start e (some "off") ≠ 0) :
    (calculate_prior pc histories entity_id start e store).2
      = update_learned_priors store entity_id
          (calculate_prior pc histories entity_id start e store).1.1
          (calculate_prior pc histories entity_id start e store).1.2.1
          (calculate_prior pc histories entity_id start e store).1.2.2
    ∧ ∀ (explike : ℚ → ℚ) (pc2 : ProbabilityCalculator) (store2 : Store)
        (data : Option ℚ) (threshold dm dw now : ℚ) (lt : Option ℚ)
        (ts : Option SlotData) (ss : List (String × SensorState)),
        (calculate explike pc2 store2 data threshold dm dw now lt ts ss).learned
          = store2 := by
  constructor
  · simp only [calculate_prior]
    simp [hm, he, ht]
  · intro explike pc2 store2 data threshold dm dw now lt ts ss
    rfl

/-- C3 amended, witness: on a window with actual motion history, the store
returned by `calculate_prior` is the input store with the computed triple
written under the entity. -/
theorem C3_prior_writeback_witness :
    (calculate_prior c3calc c3histories "light.desk" 0 100 store0).2
      = update_learned_priors store0 "light.desk"
          (calculate_prior c3calc c3histories "light.desk" 0 100 store0).1.1
          (calculate_prior c3calc c3histories "light.desk" 0 100 store0).1.2.1
          (calculate_prior c3calc c3histories "light.desk" 0 100 store0).1.2.2
    ∧ (calculate (fun _ => 1) c3calc store0 (some (1/2)) 50 60 600 0 none none
        []).learned = store0 := by
  have h := C3_prior_writeback_in_calculate_prior c3calc c3histories "light.desk"
    0 100 store0
    (by norm_num [motionStatesOf, c3calc, c3histories])
    (by norm_num [c3histories])
    (by
      have hne : ("on" : String) ≠ "off" := by decide
      norm_num [durationsAt, motionStatesOf, c3calc, c3histories, hne,
        states_to_intervals, sortStates, List.insertionSort, List.orderedInsert,
        s2iGo])
  exact ⟨h.1, h.2 (fun _ => 1) c3calc store0 (some (1/2)) 50 60 600 0 none none []⟩

/- ---------------------------------------------------------------------------
   C5: the fail-soft defaults of `calculate_prior`.
--------------------------------------------------------------------------- -/

/-- C5 counterexample: with zero motion history, `calculate_prior` for a
motion-category entity returns the GLOBAL default likelihoods
(0.3, 0.02) together with the category default prior — not the category
default triple, whose likelihood pair would be (0.25, 0.05). -/
theorem C5_defaults_not_category_likelihoods :
    (calculate_prior c5calc (fun _ => []) "binary_sensor.motion_a" 0 100 store0).1
      = (DEFAULT_PROB_GIVEN_TRUE, DEFAULT_PROB_GIVEN_FALSE, MOTION_DEFAULT_PRIOR)
    ∧ get_sensor_priors c5calc "binary_sensor.motion_a"
        = (MOTION_PROB_GIVEN_TRUE, MOTION_PROB_GIVEN_FALSE)
    ∧ (DEFAULT_PROB_GIVEN_TRUE, DEFAULT_PROB_GIVEN_FALSE)
        ≠ (MOTION_PROB_GIVEN_TRUE, MOTION_PROB_GIVEN_FALSE) := by
  refine ⟨?_, ?_, ?_⟩
  · norm_num [calculate_prior, motionStatesOf, c5calc, get_default_prior]
  · norm_num [get_sensor_priors, c5calc]
  · norm_num [DEFAULT_PROB_GIVEN_TRUE, DEFAULT_PROB_GIVEN_FALSE,
      MOTION_PROB_GIVEN_TRUE, MOTION_PROB_GIVEN_FALSE, Prod.ext_iff]

/-- C5 amended: `calculate_prior` never fails on missing history — whenever
there is no motion-sensor history, or no history for the target entity, or
the summed on/off motion duration over the window is zero, it returns exactly
`(DEFAULT_PROB_GIVEN_TRUE, DEFAULT_PROB_GIVEN_FALSE, get_default_prior …)`,
i.e. the global default likelihood pair with the category default prior, and
leaves the learned-priors store untouched. -/
theorem C5_calculate_prior_fail_soft (pc : ProbabilityCalculator)
    (histories : String → List HAState) (entity_id : String) (start e : ℚ)
    (store : Store)
    (h : motionStatesOf pc histories = [] ∨ histories entity_id = []
        ∨ durationsAt (motionStatesOf pc histories) start e (some "on")
          + durationsAt (motionStatesOf pc histories) start e (some "off") = 0) :
    (calculate_prior pc histories entity_id start e store).1
      = (DEFAULT_PROB_GIVEN_TRUE, DEFAULT_PROB_GIVEN_FALSE, get_default_prior entity_id pc)
    ∧ (calculate_prior pc histories entity_id start e store).2 = store := by
  unfold calculate_prior
  dsimp only
  split_ifs with h1 h2 h3
  · exact ⟨rfl, rfl⟩
  · exact ⟨rfl, rfl⟩
  · exact ⟨rfl, rfl⟩
  · rcases h with h | h | h
    · exact absurd h h1
    · exact absurd h h2
    · exact absurd h h3

/-- C5 amended, witness: the fail-soft triple at a concrete motion entity with
entirely empty recorder histories. -/
theorem C5_calculate_prior_fail_soft_witness :
    (calculate_prior c5calc (fun _ => []) "binary_sensor.motion_a" 0 100 store0).1
      = (DEFAULT_PROB_GIVEN_TRUE, DEFAULT_PROB_GIVEN_FALSE,
          get_default_prior "binary_sensor.motion_a" c5calc)
    ∧ (calculate_prior c5calc (fun _ => []) "binary_sensor.motion_a" 0 100 store0).2
        = store0 :=
  C5_calculate_prior_fail_soft c5calc (fun _ => []) "binary_sensor.motion_a" 0 100 store0
    (Or.inl (by norm_num [motionStatesOf]))

/- ---------------------------------------------------------------------------
   C8 / C9: the decay branch of `calculate`.
--------------------------------------------------------------------------- -/

lemma calcLoop_no_active (pc : ProbabilityCalculator) (store : Store)
    (ts : Option SlotData) :
    ∀ (l : List (String × SensorState)) (cur : ℚ) (trig : List String)
      (probs : List (String × ℚ)),
      (∀ p ∈ l, p.2.availability = true → is_active_now pc p.1 p.2.state = false) →
      (l.foldl (calcStep pc store ts) (cur, trig, probs)).1 = cur
      ∧ (l.foldl (calcStep pc store ts) (cur, trig, probs)).2.1 = trig := by
  intro l
  induction l with
  | nil => intro cur trig probs _; exact ⟨rfl, rfl⟩
  | cons hd tl ih =>
      intro cur trig probs h
      rw [List.foldl_cons]
      by_cases hav : hd.2.availability = false
      · have : calcStep pc store ts (cur, trig, probs) hd = (cur, trig, probs) := by
          simp [calcStep, hav]
        rw [this]
        exact ih cur trig probs (fun p hp => h p (List.mem_cons_of_mem hd hp))
      · have hav' : hd.2.availability = true := by
          cases hq : hd.2.availability
          · exact absurd hq hav
          · rfl
        have hact : is_active_now pc hd.1 hd.2.state = false :=
          h hd (List.mem_cons_self hd tl) hav'
        have : calcStep pc store ts (cur, trig, probs) hd
            = (cur, trig, probs ++ [(hd.1, cur)]) := by
          simp [calcStep, hav, hact]
        rw [this]
        exact ih cur trig _ (fun p hp => h p (List.mem_cons_of_mem hd hp))

/-- Value of the final probability of `calculate` on a cycle with no active
sensor and a recorded last positive trigger: the previous probability is
clamped, then multiplied by the `explike` decay factor and re-clamped exactly
when the elapsed time exceeds the minimum delay (and is positive, and the
decay window is positive). -/
lemma calculate_no_active_probability (explike : ℚ → ℚ) (pc : ProbabilityCalculator)
    (store : Store) (data : Option ℚ) (threshold dm dw now lt : ℚ)
    (ts : Option SlotData) (ss : List (String × SensorState))
    (h : ∀ p ∈ ss, p.2.availability = true → is_active_now pc p.1 p.2.state = false) :
    (calculate explike pc store data threshold dm dw now (some lt) ts
        ss).result.probability
      = if now - lt > dm ∧ now - lt > 0 ∧ dw > 0 then
          clampProb (clampProb (prevOf data) * explike (-DECAY_LAMBDA * ((now - lt) / dw)))
        else clampProb (prevOf data) := by
  obtain ⟨hcur, htrig⟩ :=
    calcLoop_no_active pc store ts ss (prevOf data) [] [] h
  unfold calculate
  dsimp only
  rw [hcur, htrig]
  simp only [ne_eq, not_true_eq_false, if_false]
  split_ifs with hc
  · rfl
  · rfl

/-- C8: with no active sensor, a last positive trigger 300 s ago,
decay_window 600 s and min delay 60 s, `calculate` multiplies the (clamped)
running probability by `explike (-0.8664 * 300/600)` and clamps the result;
with the trigger only 50 s ago (≤ min delay) the probability is left at its
clamped previous value; and the real decay factor
`exp (-0.8664 * 300/600)` is within 0.001 of 0.648. -/
theorem C8_decay_factor_and_min_delay :
    (∀ (explike : ℚ → ℚ) (prev : ℚ),
      (calculate explike c5calc store0 (some prev) 50 60 600 300 (some 0) none
          c8states).result.probability
        = clampProb (clampProb prev * explike (-DECAY_LAMBDA * (300 / 600))))
    ∧ (∀ (explike : ℚ → ℚ) (prev : ℚ),
      (calculate explike c5calc store0 (some prev) 50 60 600 50 (some 0) none
          c8states).result.probability = clampProb prev)
    ∧ |Real.exp (-((DECAY_LAMBDA : ℚ) : ℝ) * (300 / 600)) - 648/1000| < 1/1000 := by
  have hno : ∀ p ∈ c8states, p.2.availability = true →
      is_active_now c5calc p.1 p.2.state = false := by
    intro p hp _
    rcases List.mem_singleton.mp hp with rfl
    decide
  refine ⟨?_, ?_, ?_⟩
  · intro explike prev
    rw [calculate_no_active_probability explike c5calc store0 (some prev) 50 60 600
      300 0 none c8states hno]
    norm_num [prevOf]
  · intro explike prev
    rw [calculate_no_active_probability explike c5calc store0 (some prev) 50 60 600
      50 0 none c8states hno]
    norm_num [prevOf]
  · have hxval : -(((DECAY_LAMBDA : ℚ)) : ℝ) * (300 / 600) = -(1083/2500 : ℝ) := by
      norm_num [DECAY_LAMBDA]
    rw [hxval]
    have habs : |(-(1083/2500 : ℝ))| ≤ 1 := by
      rw [abs_neg, abs_of_nonneg (by norm_num : (0:ℝ) ≤ 1083/2500)]
      norm_num
    have hb := @Real.exp_bound (-(1083/2500 : ℝ)) habs 6 (by norm_num)
    have hsum : (∑ m ∈ Finset.range 6, (-(1083/2500 : ℝ)) ^ m / m.factorial)
        = 2532899032534455619/3906250000000000000 := by
      rw [Finset.sum_range_succ, Finset.sum_range_succ, Finset.sum_range_succ,
        Finset.sum_range_succ, Finset.sum_range_succ, Finset.sum_range_succ,
        Finset.sum_range_zero]
      norm_num [Nat.factorial]
    rw [hsum] at hb
    have habs2 : |(-(1083/2500 : ℝ))| = 1083/2500 := by
      rw [abs_neg, abs_of_nonneg (by norm_num : (0:ℝ) ≤ 1083/2500)]
    rw [habs2] at hb
    have htri := abs_sub_le (Real.exp (-(1083/2500 : ℝ)))
      (2532899032534455619/3906250000000000000 : ℝ) (648/1000 : ℝ)
    have : |(2532899032534455619/3906250000000000000 : ℝ) - 648/1000| < 567/1000000 := by
      rw [abs_of_nonneg (by norm_num : (0:ℝ) ≤
        (2532899032534455619/3906250000000000000 : ℝ) - 648/1000)]
      norm_num
    calc |Real.exp (-(1083/2500 : ℝ)) - 648/1000|
        ≤ |Real.exp (-(1083/2500 : ℝ)) - 2532899032534455619/3906250000000000000|
            + |(2532899032534455619/3906250000000000000 : ℝ) - 648/1000| := htri
      _ < (1083/2500)^6 * (7 / (720 * 6)) + 567/1000000 := by
          have h6 : ((6:ℕ).factorial : ℝ) = 720 := by norm_num [Nat.factorial]
          have h7 : ((Nat.succ 6 : ℕ) : ℝ) = 7 := by norm_num
          refine add_lt_add_of_le_of_lt ?_ this
          calc |Real.exp (-(1083/2500 : ℝ)) - 2532899032534455619/3906250000000000000|
              ≤ (1083/2500)^6 * (((Nat.succ 6 : ℕ) : ℝ) / ((6:ℕ).factorial * 6)) := hb
            _ = (1083/2500)^6 * (7 / (720 * 6)) := by rw [h6, h7]
      _ < 1/1000 := by norm_num

/-- C9: between two positive triggers, decay is monotonically non-increasing:
with the same starting state, no active sensor, elapsed times t₁ < t₂ since
the same last trigger, a nonnegative minimum delay and a positive decay
window, and the decay factor function behaving like a decaying exponential at
the two relevant points (larger elapsed gives a smaller factor, and the later
factor is at most 1), the probability `calculate` produces at t₂ is at most
the one it produces at t₁ — clamping included. -/
theorem C9_decay_monotone (explike : ℚ → ℚ) (pc : ProbabilityCalculator)
    (store : Store) (data : Option ℚ) (threshold dm dw lt t1 t2 : ℚ)
    (ts : Option SlotData) (ss : List (String × SensorState))
    (hdm : 0 ≤ dm) (hdw : 0 < dw) (ht : t1 < t2)
    (hNoActive : ∀ p ∈ ss, p.2.availability = true →
      is_active_now pc p.1 p.2.state = false)
    (hf1 : explike (-DECAY_LAMBDA * (t2 / dw)) ≤ explike (-DECAY_LAMBDA * (t1 / dw)))
    (hfle : explike (-DECAY_LAMBDA * (t2 / dw)) ≤ 1) :
    (calculate explike pc store data threshold dm dw (lt + t2) (some lt) ts
        ss).result.probability
      ≤ (calculate explike pc store data threshold dm dw (lt + t1) (some lt) ts
          ss).result.probability := by
  rw [calculate_no_active_probability explike pc store data threshold dm dw (lt + t2)
    lt ts ss hNoActive,
    calculate_no_active_probability explike pc store data threshold dm dw (lt + t1)
    lt ts ss hNoActive]
  have he2 : lt + t2 - lt = t2 := by ring
  have he1 : lt + t1 - lt = t1 := by ring
  rw [he1, he2]
  have hcp_lb : MIN_PROBABILITY ≤ clampProb (prevOf data) := clampProb_lb _
  have hcp_pos : (0:ℚ) ≤ clampProb (prevOf data) :=
    le_trans (by norm_num [MIN_PROBABILITY]) hcp_lb
  split_ifs with h2 h1 h1
  · -- both runs decay
    exact clampProb_mono (mul_le_mul_of_nonneg_left hf1 hcp_pos)
  · -- t2 decays, t1 does not
    calc clampProb (clampProb (prevOf data) * explike (-DECAY_LAMBDA * (t2 / dw)))
        ≤ clampProb (clampProb (prevOf data) * 1) :=
          clampProb_mono (mul_le_mul_of_nonneg_left hfle hcp_pos)
      _ = clampProb (clampProb (prevOf data)) := by rw [mul_one]
      _ = clampProb (prevOf data) := clampProb_of_mem (clampProb_lb _) (clampProb_ub _)
  · -- t1 decays but t2 does not: impossible since t1 < t2
    exfalso
    apply h2
    obtain ⟨h1a, _, h1c⟩ := h1
    exact ⟨lt_trans h1a ht, lt_trans (lt_of_le_of_lt hdm h1a) ht, h1c⟩
  · -- neither decays
    exact le_refl _

/-- C9 witness: the monotonicity instance at a concrete configuration
(no sensors, previous probability 1/2, constant decay-factor stand-in 1/2,
minimum delay 60 s, window 600 s, elapsed 100 s versus 200 s). -/
theorem C9_decay_monotone_witness :
    (calculate (fun _ => 1/2) emptyCalc store0 (some (1/2)) 50 60 600 (0 + 200)
        (some 0) none []).result.probability
      ≤ (calculate (fun _ => 1/2) emptyCalc store0 (some (1/2)) 50 60 600 (0 + 100)
          (some 0) none []).result.probability :=
  C9_decay_monotone (fun _ => 1/2) emptyCalc store0 (some (1/2)) 50 60 600 0 100 200
    none [] (by norm_num) (by norm_num) (by norm_num)
    (by intro p hp; cases hp) (le_refl _) (by norm_num)

/- ---------------------------------------------------------------------------
   C6: intervalization and motion-interval union.
--------------------------------------------------------------------------- -/

lemma tiles_le : ∀ (l : List IntervalT) (a b : ℚ), Tiles l a b → a ≤ b := by
  intro l
  induction l with
  | nil => intro a b h; exact le_of_eq h
  | cons I rest ih =>
      intro a b h
      obtain ⟨h1, h2, h3⟩ := h
      calc a = I.1 := h1.symm
        _ ≤ I.2.1 := le_of_lt h2
        _ ≤ b := ih I.2.1 b h3

lemma tiles_bounds : ∀ (l : List IntervalT) (a b : ℚ), Tiles l a b →
    ∀ I ∈ l, a ≤ I.1 ∧ I.2.1 ≤ b := by
  intro l
  induction l with
  | nil => intro a b _ I hI; cases hI
  | cons J rest ih =>
      intro a b h I hI
      obtain ⟨h1, h2, h3⟩ := h
      rcases List.mem_cons.mp hI with rfl | hI
      · exact ⟨le_of_eq h1.symm, tiles_le rest _ _ h3⟩
      · obtain ⟨ha, hb⟩ := ih J.2.1 b h3 I hI
        exact ⟨le_trans (le_of_eq h1.symm) (le_trans (le_of_lt h2) ha), hb⟩

lemma tiles_pairwise : ∀ (l : List IntervalT) (a b : ℚ), Tiles l a b →
    List.Pairwise (fun I J => I.2.1 ≤ J.1) l := by
  intro l
  induction l with
  | nil => intro a b _; exact List.Pairwise.nil
  | cons J rest ih =>
      intro a b h
      obtain ⟨h1, h2, h3⟩ := h
      exact List.Pairwise.cons
        (fun I hI => (tiles_bounds rest _ _ h3 I hI).1) (ih _ _ h3)

lemma tiles_cover : ∀ (l : List IntervalT) (a b : ℚ), Tiles l a b →
    ∀ x, (∃ I ∈ l, I.1 ≤ x ∧ x < I.2.1) ↔ (a ≤ x ∧ x < b) := by
  intro l
  induction l with
  | nil =>
      intro a b h x
      subst h
      simp only [List.not_mem_nil, false_and, exists_false, exists_and_left, false_iff]
      intro hc
      exact absurd (lt_of_le_of_lt hc.1 hc.2) (lt_irrefl a)
  | cons J rest ih =>
      intro a b h x
      obtain ⟨h1, h2, h3⟩ := h
      subst h1
      constructor
      · rintro ⟨I, hI, hx1, hx2⟩
        rcases List.mem_cons.mp hI with rfl | hI
        · exact ⟨hx1, lt_of_lt_of_le hx2 (tiles_le rest _ _ h3)⟩
        · have := (ih _ _ h3 x).mp ⟨I, hI, hx1, hx2⟩
          exact ⟨le_trans (le_of_lt h2) this.1, this.2⟩
      · rintro ⟨hx1, hx2⟩
        by_cases hc : x < J.2.1
        · exact ⟨J, List.mem_cons_self _ _, hx1, hc⟩
        · obtain ⟨I, hI, hIx⟩ := (ih _ _ h3 x).mpr ⟨not_lt.mp hc, hx2⟩
          exact ⟨I, List.mem_cons_of_mem _ hI, hIx⟩

lemma s2iGo_cons_some (start e : ℚ) (st : HAState) (rest : List HAState)
    (cs : ℚ) (c : String) :
    s2iGo start e (st :: rest) cs (some c)
      = (if cs < max st.last_changed start then [(cs, max st.last_changed start, some c)]
          else [])
        ++ s2iGo start e rest (max st.last_changed start) (some st.state) := rfl

lemma s2iGo_tiles (start e : ℚ) :
    ∀ (l : List HAState) (cs : ℚ) (c : String),
      start ≤ cs → cs ≤ e →
      (∀ st ∈ l, cs ≤ max st.last_changed start) →
      (∀ st ∈ l, st.last_changed ≤ e) →
      List.Sorted stateLE l →
      Tiles (s2iGo start e l cs (some c)) cs e := by
  intro l
  induction l with
  | nil =>
      intro cs c _ hcse _ _ _
      by_cases hlt : cs < e
      · simp only [s2iGo, if_pos hlt]
        exact ⟨rfl, hlt, rfl⟩
      · simp only [s2iGo, if_neg hlt]
        exact le_antisymm hcse (not_lt.mp hlt)
  | cons st rest ih =>
      intro cs c hscs hcse hge hle hsorted
      have hss_ge : cs ≤ max st.last_changed start := hge st (List.mem_cons_self _ _)
      have hss_le : max st.last_changed start ≤ e :=
        max_le (hle st (List.mem_cons_self _ _)) (le_trans hscs hcse)
      have hstart_ss : start ≤ max st.last_changed start := le_max_right _ _
      have hge' : ∀ st' ∈ rest, max st.last_changed start ≤ max st'.last_changed start := by
        intro st' hst'
        exact max_le_max ((List.sorted_cons.mp hsorted).1 st' hst') le_rfl
      have hle' : ∀ st' ∈ rest, st'.last_changed ≤ e :=
        fun st' hst' => hle st' (List.mem_cons_of_mem _ hst')
      have hsorted' : List.Sorted stateLE rest := (List.sorted_cons.mp hsorted).2
      rw [s2iGo_cons_some]
      by_cases hlt : cs < max st.last_changed start
      · rw [if_pos hlt]
        refine ⟨rfl, hlt, ?_⟩
        exact ih (max st.last_changed start) st.state hstart_ss hss_le hge' hle' hsorted'
      · rw [if_neg hlt, List.nil_append]
        have heq : max st.last_changed start = cs := le_antisymm (not_lt.mp hlt) hss_ge
        rw [heq]
        exact ih cs st.state hscs hcse (by rw [← heq]; exact hge') hle' hsorted'

lemma sortStates_single (st : HAState) : sortStates [st] = [st] := rfl

/-- C6 counterexample: with an EMPTY event list, `_states_to_intervals`
produces one `(start, end, None)` interval spanning the whole window, not
zero intervals. -/
theorem C6_empty_history_one_interval :
    states_to_intervals [] 0 10 = [(0, 10, none)]
    ∧ (states_to_intervals [] 0 10).length ≠ 0 := by
  constructor
  · norm_num [states_to_intervals, sortStates, List.insertionSort, s2iGo]
  · norm_num [states_to_intervals, sortStates, List.insertionSort, s2iGo]

lemma mergeGo_start_le :
    ∀ (l : List (ℚ × ℚ)) (cur : ℚ × ℚ),
      List.Pairwise startLE l → (∀ i ∈ l, cur.1 ≤ i.1) →
      ∀ j ∈ mergeGo cur l, cur.1 ≤ j.1 := by
  intro l
  induction l with
  | nil =>
      intro cur _ _ j hj
      rcases List.mem_singleton.mp hj with rfl
      exact le_rfl
  | cons i rest ih =>
      intro cur hp hs j hj
      rw [mergeGo] at hj
      split_ifs at hj with hm
      · exact ih (cur.1, max cur.2 i.2) (List.pairwise_cons.mp hp).2
          (fun r hr => le_trans (hs i (List.mem_cons_self _ _))
            ((List.pairwise_cons.mp hp).1 r hr)) j hj
      · rcases List.mem_cons.mp hj with rfl | hj
        · exact le_rfl
        · exact le_trans (hs i (List.mem_cons_self _ _))
            (ih i (List.pairwise_cons.mp hp).2 (List.pairwise_cons.mp hp).1 j hj)

lemma mergeGo_pairwise :
    ∀ (l : List (ℚ × ℚ)) (cur : ℚ × ℚ),
      List.Pairwise startLE l → (∀ i ∈ l, cur.1 ≤ i.1) →
      List.Pairwise (fun I J : ℚ × ℚ => I.2 < J.1) (mergeGo cur l)
      ∧ List.Pairwise startLE (mergeGo cur l) := by
  intro l
  induction l with
  | nil =>
      intro cur _ _
      exact ⟨List.pairwise_singleton _ _, List.pairwise_singleton _ _⟩
  | cons i rest ih =>
      intro cur hp hs
      rw [mergeGo]
      split_ifs with hm
      · exact ih (cur.1, max cur.2 i.2) (List.pairwise_cons.mp hp).2
          (fun r hr => le_trans (hs i (List.mem_cons_self _ _))
            ((List.pairwise_cons.mp hp).1 r hr))
      · have hrec := ih i (List.pairwise_cons.mp hp).2 (List.pairwise_cons.mp hp).1
        have hstarts := mergeGo_start_le rest i (List.pairwise_cons.mp hp).2
          (List.pairwise_cons.mp hp).1
        constructor
        · exact List.Pairwise.cons
            (fun j hj => lt_of_lt_of_le (not_le.mp hm) (hstarts j hj)) hrec.1
        · exact List.Pairwise.cons
            (fun j hj => le_trans (hs i (List.mem_cons_self _ _)) (hstarts j hj))
            hrec.2

lemma mergeGo_union :
    ∀ (l : List (ℚ × ℚ)) (cur : ℚ × ℚ),
      List.Pairwise startLE l → (∀ i ∈ l, cur.1 ≤ i.1) →
      ∀ x, (∃ j ∈ mergeGo cur l, j.1 ≤ x ∧ x < j.2)
        ↔ ((cur.1 ≤ x ∧ x < cur.2) ∨ ∃ i ∈ l, i.1 ≤ x ∧ x < i.2) := by
  intro l
  induction l with
  | nil =>
      intro cur _ _ x
      simp [mergeGo]
  | cons i rest ih =>
      intro cur hp hs x
      rw [mergeGo]
      split_ifs with hm
      · rw [ih (cur.1, max cur.2 i.2) (List.pairwise_cons.mp hp).2
          (fun r hr => le_trans (hs i (List.mem_cons_self _ _))
            ((List.pairwise_cons.mp hp).1 r hr)) x]
        have hci : cur.1 ≤ i.1 := hs i (List.mem_cons_self _ _)
        constructor
        · rintro (⟨h1, h2⟩ | h)
          · by_cases hx : x < cur.2
            · exact Or.inl ⟨h1, hx⟩
            · refine Or.inr ⟨i, List.mem_cons_self _ _, le_trans hm (not_lt.mp hx), ?_⟩
              rcases max_cases cur.2 i.2 with ⟨hmax, _⟩ | ⟨hmax, _⟩
              · exact absurd (hmax ▸ h2) hx
              · exact hmax ▸ h2
          · exact Or.inr (by
              obtain ⟨r, hr, hrx⟩ := h
              exact ⟨r, List.mem_cons_of_mem _ hr, hrx⟩)
        · rintro (⟨h1, h2⟩ | ⟨r, hr, hr1, hr2⟩)
          · exact Or.inl ⟨h1, lt_of_lt_of_le h2 (le_max_left _ _)⟩
          · rcases List.mem_cons.mp hr with rfl | hr
            · exact Or.inl ⟨le_trans hci hr1, lt_of_lt_of_le hr2 (le_max_right _ _)⟩
            · exact Or.inr ⟨r, hr, hr1, hr2⟩
      · constructor
        · rintro ⟨j, hj, hjx⟩
          rcases List.mem_cons.mp hj with rfl | hj
          · exact Or.inl hjx
          · rcases (ih i (List.pairwise_cons.mp hp).2 (List.pairwise_cons.mp hp).1
                x).mp ⟨j, hj, hjx⟩ with h | ⟨r, hr, hrx⟩
            · exact Or.inr ⟨i, List.mem_cons_self _ _, h⟩
            · exact Or.inr ⟨r, List.mem_cons_of_mem _ hr, hrx⟩
        · rintro (h | ⟨r, hr, hrx⟩)
          · exact ⟨cur, List.mem_cons_self _ _, h⟩
          · rcases List.mem_cons.mp hr with rfl | hr
            · obtain ⟨j, hj, hjx⟩ := (ih r (List.pairwise_cons.mp hp).2
                (List.pairwise_cons.mp hp).1 x).mpr (Or.inl hrx)
              exact ⟨j, List.mem_cons_of_mem _ hj, hjx⟩
            · obtain ⟨j, hj, hjx⟩ := (ih i (List.pairwise_cons.mp hp).2
                (List.pairwise_cons.mp hp).1 x).mpr (Or.inr ⟨r, hr, hrx⟩)
              exact ⟨j, List.mem_cons_of_mem _ hj, hjx⟩

/-- C6 amended: intervalization is ordered, non-overlapping and contiguous,
but for a non-empty event list (with every event time at most the window end)
it covers exactly `[max t1 start, end]`, where `t1` — exhibited as a member of
the event-time list that bounds all event times from below — is the earliest
event time; coverage of exactly `[start, end]` therefore holds precisely when
some event is at or before `start`.  An EMPTY event list yields ONE
`(start, end, None)` interval rather than zero; a single perpetual-state event
does yield one interval spanning the whole window; and the motion-interval
union is a start-sorted list of pairwise non-overlapping (gap-separated)
intervals whose union equals the union of the extracted ON intervals. -/
theorem C6_intervalization_and_union :
    (∀ start e : ℚ, start < e → states_to_intervals [] start e = [(start, e, none)])
    ∧ (∀ (t : ℚ) (v : String) (start e : ℚ), t ≤ start → start < e →
        states_to_intervals [⟨t, v⟩] start e = [(start, e, some v)])
    ∧ (∀ (states : List HAState) (start e : ℚ), states ≠ [] → start ≤ e →
        (∀ s ∈ states, s.last_changed ≤ e) →
        ∃ t1, t1 ∈ states.map HAState.last_changed
          ∧ (∀ s ∈ states, t1 ≤ s.last_changed)
          ∧ Tiles (states_to_intervals states start e) (max t1 start) e
          ∧ List.Pairwise (fun I J : IntervalT => I.2.1 ≤ J.1)
              (states_to_intervals states start e)
          ∧ ∀ x, (∃ I ∈ states_to_intervals states start e, I.1 ≤ x ∧ x < I.2.1)
              ↔ (max t1 start ≤ x ∧ x < e))
    ∧ (∀ (ms : List (String × List HAState)) (start e : ℚ),
        List.Pairwise (fun I J : ℚ × ℚ => I.2 < J.1) (combine_motion_intervals ms start e)
        ∧ List.Pairwise startLE (combine_motion_intervals ms start e)
        ∧ ∀ x, (∃ I ∈ combine_motion_intervals ms start e, I.1 ≤ x ∧ x < I.2)
            ↔ (∃ I ∈ on_intervals ms start e, I.1 ≤ x ∧ x < I.2)) := by
  refine ⟨?_, ?_, ?_, ?_⟩
  · intro start e h
    simp [states_to_intervals, sortStates, List.insertionSort, s2iGo, if_pos h]
  · intro t v start e h1 h2
    show s2iGo start e [⟨t, v⟩] start none = [(start, e, some v)]
    simp only [s2iGo, max_eq_right h1, if_pos h2]
  · intro states start e hne hse hle
    rcases hsort : sortStates states with _ | ⟨st, rest⟩
    · exfalso
      apply hne
      have hperm : (sortStates states).Perm states := List.perm_insertionSort stateLE states
      rw [hsort] at hperm
      exact (List.Perm.nil_eq hperm).symm
    · have hperm : (sortStates states).Perm states := List.perm_insertionSort stateLE states
      rw [hsort] at hperm
      have hmem : ∀ s ∈ (st :: rest : List HAState), s.last_changed ≤ e := by
        intro s hs
        exact hle s (hperm.mem_iff.mp hs)
      have hsorted : List.Sorted stateLE (sortStates states) :=
        List.sorted_insertionSort stateLE states
      rw [hsort] at hsorted
      have hres : states_to_intervals states start e
          = s2iGo start e rest (max st.last_changed start) (some st.state) := by
        unfold states_to_intervals
        rw [hsort]
        rfl
      refine ⟨st.last_changed, ?_, ?_, ?_⟩
      · exact List.mem_map_of_mem HAState.last_changed
          (hperm.mem_iff.mp (List.mem_cons_self _ _))
      · intro s hs
        rcases List.mem_cons.mp (hperm.mem_iff.mpr hs) with rfl | hs'
        · exact le_rfl
        · exact (List.sorted_cons.mp hsorted).1 s hs'
      · have htiles : Tiles (states_to_intervals states start e)
            (max st.last_changed start) e := by
          rw [hres]
          refine s2iGo_tiles start e rest (max st.last_changed start) st.state
            (le_max_right _ _) (max_le (hmem st (List.mem_cons_self _ _)) hse)
            ?_ (fun s hs => hmem s (List.mem_cons_of_mem _ hs))
            (List.sorted_cons.mp hsorted).2
          intro s hs
          exact max_le_max ((List.sorted_cons.mp hsorted).1 s hs) le_rfl
        exact ⟨htiles, tiles_pairwise _ _ _ htiles, tiles_cover _ _ _ htiles⟩
  · intro ms start e
    rcases hsort : List.insertionSort startLE (on_intervals ms start e)
      with _ | ⟨i, rest⟩
    · have hnil : on_intervals ms start e = [] := by
        have := List.perm_insertionSort startLE (on_intervals ms start e)
        rw [hsort] at this
        exact (List.Perm.nil_eq this).symm
      have hres : combine_motion_intervals ms start e = [] := by
        unfold combine_motion_intervals
        rw [hsort]
      rw [hres, hnil]
      simp
    · have hsorted : List.Pairwise startLE (i :: rest) := by
        have := List.sorted_insertionSort startLE (on_intervals ms start e)
        rw [hsort] at this
        exact this
      have hres : combine_motion_intervals ms start e = mergeGo i rest := by
        unfold combine_motion_intervals
        rw [hsort]
      have hpw := mergeGo_pairwise rest i (List.pairwise_cons.mp hsorted).2
        (List.pairwise_cons.mp hsorted).1
      refine ⟨hres ▸ hpw.1, hres ▸ hpw.2, ?_⟩
      intro x
      rw [hres, mergeGo_union rest i (List.pairwise_cons.mp hsorted).2
        (List.pairwise_cons.mp hsorted).1 x]
      have hperm := List.perm_insertionSort startLE (on_intervals ms start e)
      rw [hsort] at hperm
      constructor
      · rintro (h | ⟨r, hr, hrx⟩)
        · exact ⟨i, hperm.mem_iff.mp (List.mem_cons_self _ _), h⟩
        · exact ⟨r, hperm.mem_iff.mp (List.mem_cons_of_mem _ hr), hrx⟩
      · rintro ⟨r, hr, hrx⟩
        rcases List.mem_cons.mp (hperm.mem_iff.mpr hr) with rfl | hmem
        · exact Or.inl hrx
        · exact Or.inr ⟨r, hmem, hrx⟩

/-- C6 amended, witness: the tiling statement instantiated at a concrete
single-event history (event at t = 5 inside the window [0, 10]), where the
produced intervals tile `[5, 10]`. -/
theorem C6_intervalization_witness :
    ∃ t1 : ℚ, t1 ∈ ([⟨5, "on"⟩] : List HAState).map HAState.last_changed
      ∧ (∀ s ∈ ([⟨5, "on"⟩] : List HAState), t1 ≤ s.last_changed)
      ∧ Tiles (states_to_intervals [⟨5, "on"⟩] 0 10) (max t1 0) 10
      ∧ List.Pairwise (fun I J : IntervalT => I.2.1 ≤ J.1)
          (states_to_intervals [⟨5, "on"⟩] 0 10)
      ∧ ∀ x, (∃ I ∈ states_to_intervals [⟨5, "on"⟩] 0 10, I.1 ≤ x ∧ x < I.2.1)
          ↔ (max t1 0 ≤ x ∧ x < 10) :=
  C6_intervalization_and_union.2.2.1 [⟨5, "on"⟩] 0 10 (List.cons_ne_nil _ _)
    (by norm_num)
    (by intro s hs; rcases List.mem_singleton.mp hs with rfl; norm_num)

/- ---------------------------------------------------------------------------
   C10: shape of the `calculate_timeslots` return value on its two paths.
--------------------------------------------------------------------------- -/

/-- C10: the claim that `calculate_timeslots` always returns the
`{"slots": …, "last_updated": …}` shape fails: at t = 100 s with a cache
rebuilt at t = 0 (fresh, under the 6 h limit) the early-return path hands back
the raw cache — a dict keyed by the "HH:MM" buckets themselves with no
`"slots"` or `"last_updated"` key — so the coordinator's
`timeslot_data.get("slots", {})` lookup finds nothing even though the cache
holds the bucket; on the rebuild path the shaped dict is returned. -/
theorem C10_timeslot_cache_shape_mismatch :
    needs_cache_update c10fresh 100 = false
    ∧ (calculate_timeslots emptyCalc (fun _ => []) ["light.desk"] 7 c10fresh 100
        store0).1 = [("00:00", TSVal.slot c10slot)]
    ∧ ((calculate_timeslots emptyCalc (fun _ => []) ["light.desk"] 7 c10fresh 100
        store0).1.lookup "slots") = none
    ∧ coordinator_current_slot
        ((calculate_timeslots emptyCalc (fun _ => []) ["light.desk"] 7 c10fresh 100
          store0).1) "00:00" = none
    ∧ c10fresh.cache.lookup "00:00" = some c10slot
    ∧ (∃ m, ((calculate_timeslots emptyCalc (fun _ => []) ["light.desk"] 0 c10stale 100
        store0).1.lookup "slots") = some (TSVal.slots m))
    ∧ (∃ t, ((calculate_timeslots emptyCalc (fun _ => []) ["light.desk"] 0 c10stale 100
        store0).1.lookup "last_updated") = some (TSVal.time t)) := by
  have hfresh : needs_cache_update c10fresh 100 = false := by
    norm_num [needs_cache_update, c10fresh]
  have hstale : ¬ needs_cache_update c10stale 100 = false := by
    simp [needs_cache_update, c10stale]
  have hearly : (calculate_timeslots emptyCalc (fun _ => []) ["light.desk"] 7 c10fresh
      100 store0).1 = [("00:00", TSVal.slot c10slot)] := by
    unfold calculate_timeslots
    rw [if_pos hfresh]
    rfl
  refine ⟨hfresh, hearly, ?_, ?_, ?_, ?_, ?_⟩
  · rw [hearly]
    rfl
  · unfold coordinator_current_slot
    rw [hearly]
    rfl
  · rfl
  · unfold calculate_timeslots
    rw [if_neg hstale]
    exact ⟨_, rfl⟩
  · unfold calculate_timeslots
    rw [if_neg hstale]
    exact ⟨_, rfl⟩

end AreaOccupancy
